import Mathlib

/-!
Shallow embedding of the gravity simulation in `src/app.py`.

Floating-point values of the Python program are modelled as real numbers,
Python integers as `ℤ`/`ℕ`, Python tuples of numbers as Lean products or
lists, and `math.atan2` as the argument of the corresponding complex number
(which satisfies the same defining equations).  Each definition mirrors the
source function it is named after.
-/

noncomputable section

/-- RGB color triples, as used by the program (`color` attributes). -/
abbrev Color := ℕ × ℕ × ℕ

/-- The domain bound `width` from `width, height = 800, 600` (app.py line 11). -/
def width : ℝ := 800

/-- The domain bound `height = 600` (app.py line 11). -/
def height : ℝ := 600

/-- The gravitational constant `G = 9.8` (app.py line 16). -/
def G : ℝ := 9.8

/-- The damping constant `REBOUND_FACTOR = 0.5` (app.py line 17). -/
def REBOUND_FACTOR : ℝ := 0.5

/-- The default body mass `MASS = 10` (app.py line 18). -/
def MASS : ℝ := 10

/-- The `COLORS` palette (app.py lines 20-28). -/
def COLORS : List Color :=
  [(217, 237, 146), (93, 115, 126), (30, 96, 145), (62, 63, 63),
   (143, 45, 86), (116, 0, 184), (56, 4, 14)]

/-- The `Body` class attributes (app.py lines 31-39). -/
structure Body where
  x : ℝ
  y : ℝ
  mass : ℝ
  radius : ℤ
  vx : ℝ
  vy : ℝ
  color : Color
  trace : List (ℝ × ℝ)

/-- Constructor `Body.__init__` (app.py lines 32-39): `radius = int(math.sqrt(mass) * 2)`
(truncation coincides with `⌊·⌋` since `sqrt` is nonnegative), velocity is
unpacked into `vx, vy`, and the trace starts empty. -/
def Body.init (x y mass : ℝ) (velocity : ℝ × ℝ) (color : Color) : Body :=
  { x := x, y := y, mass := mass, radius := ⌊Real.sqrt mass * 2⌋,
    vx := velocity.1, vy := velocity.2, color := color, trace := [] }

/-- Equality `Body.__eq__` (app.py lines 41-70): two bodies compare equal exactly when
their colors are equal. -/
def Body.eq (a b : Body) : Prop := a.color = b.color

instance (a b : Body) : Decidable (a.eq b) :=
  inferInstanceAs (Decidable (a.color = b.color))

/-- The library function `math.atan2 dy dx`, modelled as the argument of the complex number
`dx + dy*I` (both functions satisfy `cos θ = dx/r`, `sin θ = dy/r`,
return `0` at the origin, and take values in `(-π, π]`). -/
def atan2 (dy dx : ℝ) : ℝ := Complex.arg ⟨dx, dy⟩

/-- The pairwise force `calculate_gravitational_force` (app.py lines 251-292). -/
def calculate_gravitational_force (p1 p2 : Body) : ℝ × ℝ :=
  let dx := p2.x - p1.x
  let dy := p2.y - p1.y
  let distance := max 1 (Real.sqrt (dx ^ 2 + dy ^ 2))
  if distance < 40 then (0, 0)
  else
    let force := G * p1.mass * p2.mass / distance ^ 2
    let angle := atan2 dy dx
    (force * Real.cos angle, force * Real.sin angle)

/-- The loop body of `add_tuples` (app.py lines 313-319): iterate over the
given index list (`for i in range(len(tuple))`), adding even-indexed elements
to the first accumulator component and odd-indexed ones to the second. -/
def add_tuples_loop (t : List ℝ) : List ℕ → ℝ × ℝ → ℝ × ℝ
  | [], acc => acc
  | i :: is, acc =>
      add_tuples_loop t is
        (if i % 2 = 0 then (acc.1 + t.getD i 0, acc.2) else (acc.1, acc.2 + t.getD i 0))

/-- The function `add_tuples` (app.py lines 295-320): sum the even-indexed and the
odd-indexed elements of a flat tuple separately. -/
def add_tuples (t : List ℝ) : ℝ × ℝ := add_tuples_loop t (List.range t.length) (0, 0)

/-- The accumulation loop of `Body.calculate_grav_force` (app.py lines
101-104): starting from the tuple `(0, 0)`, for each body that does not
compare equal to `self` (i.e. whose color differs, by `Body.__eq__`),
concatenate the pairwise force tuple onto the growing flat tuple
(`force += calculate_gravitational_force(self, body)` concatenates tuples). -/
def grav_force_tuple (self : Body) (bodies : List Body) : List ℝ :=
  bodies.foldl
    (fun force body =>
      if body.eq self then force
      else
        force ++ [(calculate_gravitational_force self body).1,
                  (calculate_gravitational_force self body).2])
    [0, 0]

/-- The method `Body.update_trace` (app.py lines 147-172): append the current position;
if the length then equals 100, pop the oldest entry. -/
def Body.update_trace (b : Body) : Body :=
  let t := b.trace ++ [(b.x, b.y)]
  { b with trace := if t.length = 100 then t.tail else t }

/-- The method `Body.check_boundaries` (app.py lines 174-216): clamp and damp on the
vertical axis first (`if`/`elif`), then independently on the horizontal axis. -/
def Body.check_boundaries (b : Body) : Body :=
  let b1 :=
    if b.y < 0 then { b with y := 0, vy := b.vy * -REBOUND_FACTOR }
    else if b.y > height then { b with y := height, vy := b.vy * -REBOUND_FACTOR }
    else b
  if b1.x < 0 then { b1 with x := 0, vx := b1.vx * -REBOUND_FACTOR }
  else if b1.x > width then { b1 with x := width, vx := b1.vx * -REBOUND_FACTOR }
  else b1

/-- The integration part of `Body.update` (app.py lines 138-143): velocity is
updated from the acceleration, then position from the updated velocity. -/
def Body.integrate (b : Body) (force_x force_y : ℝ) : Body :=
  let ax := force_x / b.mass
  let ay := force_y / b.mass
  let vx := b.vx + ax
  let vy := b.vy + ay
  { b with vx := vx, vy := vy, x := b.x + vx, y := b.y + vy }

/-- The method `Body.update` (app.py lines 108-145): integrate, then `check_boundaries`,
then `update_trace`. -/
def Body.update (b : Body) (force_x force_y : ℝ) : Body :=
  (b.integrate force_x force_y).check_boundaries.update_trace

/-- The method `Body.calculate_grav_force` (app.py lines 72-106): accumulate the pairwise
forces into a flat tuple, split it with `add_tuples`, and call `update`. -/
def Body.calculate_grav_force (self : Body) (bodies : List Body) : Body :=
  let f := add_tuples (grav_force_tuple self bodies)
  self.update f.1 f.2

/-- The per-frame update loop of `main` (app.py lines 373-374):
`for body in bodies: body.calculate_grav_force(bodies)` mutates the list in
place, so the body at the head of `todo` sees the already-updated bodies in
`done` together with the not-yet-updated tail. -/
def stepGo : List Body → List Body → List Body
  | done, [] => done
  | done, b :: rest =>
      stepGo (done ++ [Body.calculate_grav_force b (done ++ b :: rest)]) rest

/-- One simulation step over the whole collection (sequential update). -/
def step (bodies : List Body) : List Body := stepGo [] bodies

/-- The spawn handler of `main` (app.py lines 356-369): if fewer than 10
bodies exist, append a new `Body` at the mouse position with `mass=MASS`,
`velocity=(0.1, 0.1)` and the next palette color; otherwise reject and log a
warning.  The boolean records whether the spawn was accepted. -/
def spawn (bodies : List Body) (mouse : ℝ × ℝ) : List Body × Bool :=
  if bodies.length < 10 then
    (bodies ++ [Body.init mouse.1 mouse.2 MASS (0.1, 0.1)
        (COLORS.getD (bodies.length - 3) (0, 0, 0))], true)
  else
    (bodies, false)

/-- Spec-side definition ("straightforward running vector sum"): component-wise
summation of a list of force pairs with separate running x and y totals. -/
def vec_sum (ps : List (ℝ × ℝ)) : ℝ × ℝ :=
  ps.foldl (fun acc p => (acc.1 + p.1, acc.2 + p.2)) (0, 0)

/-- Flatten a list of pairs into the flat tuple obtained by concatenating the
pairs in order (the shape produced by the reference accumulation). -/
def flat_pairs : List (ℝ × ℝ) → List ℝ
  | [] => []
  | p :: ps => p.1 :: p.2 :: flat_pairs ps

/-- Euclidean separation of two bodies, the `math.sqrt(dx**2 + dy**2)` of
`calculate_gravitational_force`. -/
def sep (p1 p2 : Body) : ℝ :=
  Real.sqrt ((p2.x - p1.x) ^ 2 + (p2.y - p1.y) ^ 2)

/-! Concrete bodies used as test inputs for the witnesses and
counterexamples below. -/

/-- A body at the origin; same color as `cxBodyB`. -/
def cxBodyA : Body := Body.init 0 0 10 (0, 0) (1, 2, 3)

/-- A body 50 units away from `cxBodyA`, sharing its color. -/
def cxBodyB : Body := Body.init 50 0 10 (0, 0) (1, 2, 3)

/-- A body at (5, 5). -/
def coBody1 : Body := Body.init 5 5 10 (0, 0) (1, 0, 0)

/-- A second body coincident with `coBody1`. -/
def coBody2 : Body := Body.init 5 5 10 (0, 0) (2, 0, 0)

/-- A body at the origin, mass 10. -/
def farBody1 : Body := Body.init 0 0 10 (0, 0) (1, 0, 0)

/-- A body 50 units along the x-axis from `farBody1`, mass 10. -/
def farBody2 : Body := Body.init 50 0 10 (0, 0) (2, 0, 0)

/-- A body just above the bottom edge (`y = height + 5`) moving down
(`vy = 2`), horizontally at rest in the interior. -/
def reboundBody : Body := Body.init 100 (height + 5) 10 (0, 2) (1, 0, 0)

/-- A body strictly inside the domain rectangle. -/
def boxBody : Body := Body.init 100 200 10 (0, 0) (1, 0, 0)

/-- A collection already holding ten bodies. -/
def capBodies10 : List Body := List.replicate 10 (Body.init 0 0 MASS (0, 0) (0, 0, 0))

/-- A collection holding three bodies (the initial configuration size). -/
def capBodies3 : List Body := List.replicate 3 (Body.init 0 0 MASS (0, 0) (0, 0, 0))

end

/-! ### Arithmetic of the `add_tuples` accumulation -/

lemma add_tuples_loop_shift (is : List ℕ) (t : List ℝ) (acc : ℝ × ℝ) :
    add_tuples_loop t is acc =
      (acc.1 + (add_tuples_loop t is (0, 0)).1,
       acc.2 + (add_tuples_loop t is (0, 0)).2) := by
  induction is generalizing acc with
  | nil => simp [add_tuples_loop]
  | cons i is ih =>
    by_cases h : i % 2 = 0
    · simp only [add_tuples_loop, if_pos h]
      rw [ih (acc.1 + t.getD i 0, acc.2), ih ((0 : ℝ) + t.getD i 0, (0 : ℝ))]
      simp only [Prod.mk.injEq]
      constructor <;> ring
    · simp only [add_tuples_loop, if_neg h]
      rw [ih (acc.1, acc.2 + t.getD i 0), ih ((0 : ℝ), (0 : ℝ) + t.getD i 0)]
      simp only [Prod.mk.injEq]
      constructor <;> ring

lemma add_tuples_loop_shift_two (is : List ℕ) (a b : ℝ) (l : List ℝ) (acc : ℝ × ℝ) :
    add_tuples_loop (a :: b :: l) (is.map (fun i => i + 2)) acc =
      add_tuples_loop l is acc := by
  induction is generalizing acc with
  | nil => simp [add_tuples_loop]
  | cons i is ih =>
    simp only [List.map_cons, add_tuples_loop, Nat.add_mod_right]
    have hget : (a :: b :: l).getD (i + 2) 0 = l.getD i 0 := rfl
    rw [hget, ih]

lemma range_add_two (n : ℕ) :
    List.range (n + 2) = 0 :: 1 :: (List.range n).map (fun i => i + 2) := by
  rw [List.range_succ_eq_map, List.range_succ_eq_map, List.map_cons, List.map_map]
  rfl

lemma add_tuples_cons_cons (a b : ℝ) (l : List ℝ) :
    add_tuples (a :: b :: l) = (a + (add_tuples l).1, b + (add_tuples l).2) := by
  show add_tuples_loop (a :: b :: l) (List.range (l.length + 2)) (0, 0) = _
  rw [range_add_two]
  have h0 : add_tuples_loop (a :: b :: l) (0 :: 1 :: (List.range l.length).map (fun i => i + 2)) (0, 0) =
      add_tuples_loop (a :: b :: l) ((List.range l.length).map (fun i => i + 2)) (0 + a, 0 + b) := by
    simp [add_tuples_loop]
  rw [h0, add_tuples_loop_shift_two, add_tuples_loop_shift]
  simp [add_tuples]

lemma vec_sum_shift (ps : List (ℝ × ℝ)) (acc : ℝ × ℝ) :
    ps.foldl (fun acc p => (acc.1 + p.1, acc.2 + p.2)) acc =
      (acc.1 + (vec_sum ps).1, acc.2 + (vec_sum ps).2) := by
  induction ps generalizing acc with
  | nil => simp [vec_sum]
  | cons p ps ih =>
    simp only [List.foldl_cons]
    rw [ih (acc.1 + p.1, acc.2 + p.2)]
    show _ = (acc.1 + (List.foldl _ ((0 : ℝ) + p.1, (0 : ℝ) + p.2) ps).1,
              acc.2 + (List.foldl _ ((0 : ℝ) + p.1, (0 : ℝ) + p.2) ps).2)
    rw [ih ((0 : ℝ) + p.1, (0 : ℝ) + p.2)]
    simp only [Prod.mk.injEq]
    constructor <;> ring

lemma vec_sum_cons (p : ℝ × ℝ) (ps : List (ℝ × ℝ)) :
    vec_sum (p :: ps) = (p.1 + (vec_sum ps).1, p.2 + (vec_sum ps).2) := by
  show List.foldl _ ((0 : ℝ) + p.1, (0 : ℝ) + p.2) ps = _
  rw [vec_sum_shift]
  simp

lemma add_tuples_flat_pairs (ps : List (ℝ × ℝ)) :
    add_tuples (flat_pairs ps) = vec_sum ps := by
  induction ps with
  | nil => rfl
  | cons p ps ih => rw [flat_pairs, add_tuples_cons_cons, ih, vec_sum_cons]

lemma add_tuples_pad (ps : List (ℝ × ℝ)) :
    add_tuples (flat_pairs ((0, 0) :: ps)) = vec_sum ps := by
  rw [add_tuples_flat_pairs, vec_sum_cons]
  simp

lemma grav_force_tuple_eq (self : Body) (bodies : List Body) :
    grav_force_tuple self bodies =
      flat_pairs ((0, 0) ::
        (bodies.filter (fun b => decide (¬ b.eq self))).map
          (calculate_gravitational_force self)) := by
  have key : ∀ (l : List Body) (acc : List ℝ),
      l.foldl
        (fun force body =>
          if body.eq self then force
          else
            force ++ [(calculate_gravitational_force self body).1,
                      (calculate_gravitational_force self body).2])
        acc =
      acc ++ flat_pairs ((l.filter (fun b => decide (¬ b.eq self))).map
        (calculate_gravitational_force self)) := by
    intro l
    induction l with
    | nil => intro acc; simp [flat_pairs]
    | cons b l ih =>
      intro acc
      by_cases h : b.eq self
      · simp only [List.foldl_cons, if_pos h, List.filter_cons, h]
        rw [ih]
        simp [h]
      · simp only [List.foldl_cons, if_neg h, List.filter_cons]
        rw [ih]
        simp [h, flat_pairs, List.append_assoc]
  show List.foldl _ [0, 0] bodies = _
  rw [key bodies [0, 0]]
  rfl

/-! ### The force model -/

lemma sep_comm (p1 p2 : Body) : sep p2 p1 = sep p1 p2 := by
  unfold sep
  congr 1
  ring

lemma force_eq_of_ge (p1 p2 : Body) (h : 40 ≤ sep p1 p2) :
    calculate_gravitational_force p1 p2 =
      (G * p1.mass * p2.mass / sep p1 p2 ^ 2 * ((p2.x - p1.x) / sep p1 p2),
       G * p1.mass * p2.mass / sep p1 p2 ^ 2 * ((p2.y - p1.y) / sep p1 p2)) := by
  have hs : Real.sqrt ((p2.x - p1.x) ^ 2 + (p2.y - p1.y) ^ 2) = sep p1 p2 := rfl
  have hd0 : (0 : ℝ) < sep p1 p2 := lt_of_lt_of_le (by norm_num) h
  have hmax : max (1 : ℝ) (sep p1 p2) = sep p1 p2 :=
    max_eq_right (le_trans (by norm_num) h)
  have hz : (⟨p2.x - p1.x, p2.y - p1.y⟩ : ℂ) ≠ 0 := by
    intro h0
    have hx : p2.x - p1.x = 0 := congrArg Complex.re h0
    have hy : p2.y - p1.y = 0 := congrArg Complex.im h0
    have hzero : sep p1 p2 = 0 := by
      unfold sep
      rw [hx, hy]
      simp
    linarith
  have habs : Complex.abs ⟨p2.x - p1.x, p2.y - p1.y⟩ = sep p1 p2 := by
    rw [Complex.abs_apply, Complex.normSq_mk]
    unfold sep
    congr 1
    ring
  simp only [calculate_gravitational_force, hs, hmax]
  rw [if_neg (not_lt.2 h)]
  unfold atan2
  rw [Complex.cos_arg hz, Complex.sin_arg, habs]

lemma force_mag_of_ge (p1 p2 : Body) (hm1 : 0 ≤ p1.mass) (hm2 : 0 ≤ p2.mass)
    (h : 40 ≤ sep p1 p2) :
    Real.sqrt ((calculate_gravitational_force p1 p2).1 ^ 2 +
               (calculate_gravitational_force p1 p2).2 ^ 2) =
      G * p1.mass * p2.mass / sep p1 p2 ^ 2 := by
  have hd0 : (0 : ℝ) < sep p1 p2 := lt_of_lt_of_le (by norm_num) h
  have hdne : sep p1 p2 ≠ 0 := ne_of_gt hd0
  have hG : (0 : ℝ) < G := by norm_num [G]
  have hF : (0 : ℝ) ≤ G * p1.mass * p2.mass / sep p1 p2 ^ 2 := by positivity
  have hsq : (p2.x - p1.x) ^ 2 + (p2.y - p1.y) ^ 2 = sep p1 p2 ^ 2 := by
    unfold sep
    rw [Real.sq_sqrt (by positivity)]
  rw [force_eq_of_ge p1 p2 h]
  have key : (G * p1.mass * p2.mass / sep p1 p2 ^ 2 * ((p2.x - p1.x) / sep p1 p2)) ^ 2 +
      (G * p1.mass * p2.mass / sep p1 p2 ^ 2 * ((p2.y - p1.y) / sep p1 p2)) ^ 2 =
      (G * p1.mass * p2.mass / sep p1 p2 ^ 2) ^ 2 := by
    have expand : (G * p1.mass * p2.mass / sep p1 p2 ^ 2 * ((p2.x - p1.x) / sep p1 p2)) ^ 2 +
        (G * p1.mass * p2.mass / sep p1 p2 ^ 2 * ((p2.y - p1.y) / sep p1 p2)) ^ 2 =
        (G * p1.mass * p2.mass / sep p1 p2 ^ 2) ^ 2 *
          (((p2.x - p1.x) ^ 2 + (p2.y - p1.y) ^ 2) / sep p1 p2 ^ 2) := by
      ring
    rw [expand, hsq, div_self (pow_ne_zero 2 hdne), mul_one]
  rw [key, Real.sqrt_sq hF]

lemma force_antisymm (p1 p2 : Body) (h : 40 ≤ sep p1 p2) :
    calculate_gravitational_force p2 p1 =
      (-(calculate_gravitational_force p1 p2).1,
       -(calculate_gravitational_force p1 p2).2) := by
  have h' : 40 ≤ sep p2 p1 := by rw [sep_comm]; exact h
  rw [force_eq_of_ge p2 p1 h', force_eq_of_ge p1 p2 h, sep_comm p2 p1]
  simp only [Prod.mk.injEq]
  constructor <;> ring

/-! ### Boundary reflection -/

lemma check_boundaries_proj (b : Body) :
    b.check_boundaries.y = (if b.y < 0 then 0 else if b.y > height then height else b.y) ∧
    b.check_boundaries.vy =
      (if b.y < 0 ∨ b.y > height then b.vy * -REBOUND_FACTOR else b.vy) ∧
    b.check_boundaries.x = (if b.x < 0 then 0 else if b.x > width then width else b.x) ∧
    b.check_boundaries.vx =
      (if b.x < 0 ∨ b.x > width then b.vx * -REBOUND_FACTOR else b.vx) ∧
    b.check_boundaries.mass = b.mass ∧
    b.check_boundaries.color = b.color ∧
    b.check_boundaries.trace = b.trace := by
  simp only [Body.check_boundaries]
  split_ifs <;> simp_all <;>
    rcases ‹_ ∨ _› with h | h <;> linarith

lemma check_boundaries_in_box (b : Body) :
    0 ≤ b.check_boundaries.x ∧ b.check_boundaries.x ≤ width ∧
    0 ≤ b.check_boundaries.y ∧ b.check_boundaries.y ≤ height := by
  obtain ⟨hy, -, hx, -, -, -, -⟩ := check_boundaries_proj b
  rw [hx, hy]
  have hw : (0 : ℝ) ≤ width := by norm_num [width]
  have hh : (0 : ℝ) ≤ height := by norm_num [height]
  refine ⟨?_, ?_, ?_, ?_⟩ <;> split_ifs <;> first | rfl | linarith

lemma check_boundaries_id (b : Body) (h1 : 0 ≤ b.x) (h2 : b.x ≤ width)
    (h3 : 0 ≤ b.y) (h4 : b.y ≤ height) : b.check_boundaries = b := by
  simp only [Body.check_boundaries]
  rw [if_neg (not_lt.2 h3), if_neg (not_lt.2 h4), if_neg (not_lt.2 h1),
    if_neg (not_lt.2 h2)]

/-! ### Trace updates -/

lemma update_trace_length (b : Body) (h : b.trace.length ≤ 99) :
    b.update_trace.trace.length = min (b.trace.length + 1) 99 := by
  show (if (b.trace ++ [(b.x, b.y)]).length = 100 then (b.trace ++ [(b.x, b.y)]).tail
        else b.trace ++ [(b.x, b.y)]).length = _
  by_cases h1 : (b.trace ++ [(b.x, b.y)]).length = 100
  · rw [if_pos h1, List.length_tail, h1]
    have h2 : b.trace.length + 1 = 100 := by simpa using h1
    omega
  · rw [if_neg h1]
    have h2 : ¬ b.trace.length + 1 = 100 := by simpa using h1
    simp only [List.length_append, List.length_singleton]
    omega

lemma iterate_update_trace_length (n : ℕ) : ∀ (b : Body), b.trace.length ≤ 99 →
    ((Body.update_trace)^[n] b).trace.length = min (b.trace.length + n) 99 := by
  induction n with
  | zero =>
    intro b h
    simp only [Function.iterate_zero_apply]
    omega
  | succ n ih =>
    intro b h
    rw [Function.iterate_succ_apply]
    have hb : (Body.update_trace b).trace.length ≤ 99 := by
      rw [update_trace_length b h]
      omega
    rw [ih _ hb, update_trace_length b h]
    omega

/-! ### One step of the simulation -/

lemma add_tuples_zero_pair : add_tuples [(0 : ℝ), 0] = (0, 0) := by
  have h : [(0 : ℝ), 0] = flat_pairs [((0 : ℝ), (0 : ℝ))] := rfl
  rw [h, add_tuples_flat_pairs, vec_sum_cons]
  simp [vec_sum]

lemma grav_force_tuple_single (b : Body) : grav_force_tuple b [b] = [0, 0] := by
  simp [grav_force_tuple, Body.eq]

lemma calc_grav_force_single (b : Body) :
    Body.calculate_grav_force b [b] = Body.update b 0 0 := by
  simp only [Body.calculate_grav_force, grav_force_tuple_single, add_tuples_zero_pair]

lemma calc_grav_force_in_box (b : Body) (bs : List Body) :
    0 ≤ (Body.calculate_grav_force b bs).x ∧
    (Body.calculate_grav_force b bs).x ≤ width ∧
    0 ≤ (Body.calculate_grav_force b bs).y ∧
    (Body.calculate_grav_force b bs).y ≤ height :=
  check_boundaries_in_box _

lemma stepGo_in_box (todo : List Body) : ∀ (done : List Body),
    (∀ c ∈ done, 0 ≤ c.x ∧ c.x ≤ width ∧ 0 ≤ c.y ∧ c.y ≤ height) →
    ∀ b ∈ stepGo done todo, 0 ≤ b.x ∧ b.x ≤ width ∧ 0 ≤ b.y ∧ b.y ≤ height := by
  induction todo with
  | nil =>
    intro done h b hb
    exact h b hb
  | cons c rest ih =>
    intro done h b hb
    simp only [stepGo] at hb
    refine ih _ ?_ b hb
    intro d hd
    rcases List.mem_append.1 hd with h1 | h2
    · exact h d h1
    · have hd' : d = Body.calculate_grav_force c (done ++ c :: rest) :=
        List.mem_singleton.1 h2
      rw [hd']
      exact calc_grav_force_in_box _ _

/-! ### Concrete separations -/

lemma sqrt_2500 : Real.sqrt 2500 = 50 := by
  rw [show (2500 : ℝ) = 50 ^ 2 by norm_num, Real.sqrt_sq (by norm_num : (0 : ℝ) ≤ 50)]

lemma sep_cx : sep cxBodyA cxBodyB = 50 := by
  have h : (cxBodyB.x - cxBodyA.x) ^ 2 + (cxBodyB.y - cxBodyA.y) ^ 2 = 2500 := by
    norm_num [cxBodyA, cxBodyB, Body.init]
  unfold sep
  rw [h, sqrt_2500]

lemma sep_far : sep farBody1 farBody2 = 50 := by
  have h : (farBody2.x - farBody1.x) ^ 2 + (farBody2.y - farBody1.y) ^ 2 = 2500 := by
    norm_num [farBody1, farBody2, Body.init]
  unfold sep
  rw [h, sqrt_2500]

/-! ### Claim theorems -/

/-- C1 (counterexample): for the two distinct bodies `cxBodyA`, `cxBodyB`,
which sit 50 units apart but share a color, the code's accumulated net force
on `cxBodyA` is `(0, 0)`, while the sum of `force(a, b)` over the other
bodies by identity (here just `cxBodyB`) is nonzero: the distinct body is
excluded merely because it shares `a`'s color, refuting the claim. -/
theorem net_force_identity_exclusion_fails :
    add_tuples (grav_force_tuple cxBodyA [cxBodyA, cxBodyB]) = (0, 0) ∧
    vec_sum (List.map (calculate_gravitational_force cxBodyA) [cxBodyB]) ≠ (0, 0) := by
  constructor
  · rw [grav_force_tuple_eq]
    have hfil : ([cxBodyA, cxBodyB].filter (fun b => decide (¬ b.eq cxBodyA))) = [] := by
      simp [cxBodyA, cxBodyB, Body.eq, Body.init]
    rw [hfil, List.map_nil, add_tuples_pad]
    rfl
  · intro hcontra
    have h40 : (40 : ℝ) ≤ sep cxBodyA cxBodyB := by rw [sep_cx]; norm_num
    rw [List.map_cons, List.map_nil, vec_sum_cons,
      force_eq_of_ge cxBodyA cxBodyB h40, sep_cx] at hcontra
    have h1 := congrArg Prod.fst hcontra
    norm_num [cxBodyA, cxBodyB, Body.init, vec_sum, G] at h1

/-- C1 (amended): the net force accumulated by `calculate_grav_force` equals
the component-wise vector sum of `force(self, body)` over exactly those bodies
of the collection whose color differs from `self`'s — bodies are excluded by
color equality (the `Body.__eq__` relation), not by identity, so `self`
excludes itself via its own color and any distinct body sharing that color is
excluded as well. -/
theorem net_force_is_color_filtered_sum (self : Body) (bodies : List Body) :
    add_tuples (grav_force_tuple self bodies) =
      vec_sum ((bodies.filter (fun b => decide (¬ b.eq self))).map
        (calculate_gravitational_force self)) := by
  rw [grav_force_tuple_eq, add_tuples_pad]

/-- C2 (code bug): a body whose trace starts empty and that is recorded 100
times by `update_trace` ends with a trace of length 99, not 100: the method
appends and then pops as soon as the length reaches 100, so the trace's
steady-state length is 99, contradicting the claimed capacity of 100. -/
theorem trace_after_100_records (x y m : ℝ) (v : ℝ × ℝ) (c : Color) :
    ((Body.update_trace)^[100] (Body.init x y m v c)).trace.length = 99 := by
  have h : (Body.init x y m v c).trace.length ≤ 99 := by simp [Body.init]
  rw [iterate_update_trace_length 100 _ h]
  simp [Body.init]

/-- C3: a spawn request against a collection of 10 bodies is rejected without
mutation (signalled by `false`); with fewer than 10 bodies it appends a new
`Body` carrying the requested position, the policy mass `MASS`, velocity
`(0.1, 0.1)` and palette color, with an empty trace and radius
`⌊2·sqrt(mass)⌋`. -/
theorem spawn_capacity (bodies : List Body) (mouse : ℝ × ℝ) :
    (bodies.length = 10 → spawn bodies mouse = (bodies, false)) ∧
    (bodies.length < 10 →
      ∃ nb : Body, spawn bodies mouse = (bodies ++ [nb], true) ∧
        nb.x = mouse.1 ∧ nb.y = mouse.2 ∧ nb.mass = MASS ∧
        nb.vx = 0.1 ∧ nb.vy = 0.1 ∧
        nb.color = COLORS.getD (bodies.length - 3) (0, 0, 0) ∧
        nb.trace = [] ∧ nb.radius = ⌊Real.sqrt nb.mass * 2⌋) := by
  constructor
  · intro h
    unfold spawn
    rw [if_neg (by omega)]
  · intro h
    refine ⟨Body.init mouse.1 mouse.2 MASS (0.1, 0.1)
      (COLORS.getD (bodies.length - 3) (0, 0, 0)), ?_, rfl, rfl, rfl, rfl, rfl,
      rfl, rfl, rfl⟩
    unfold spawn
    rw [if_pos h]

/-- C3 (witness): with ten bodies the spawn is rejected and the collection is
returned unchanged; with three bodies it succeeds and appends the new body. -/
theorem spawn_capacity_witness :
    capBodies10.length = 10 ∧ spawn capBodies10 (5, 5) = (capBodies10, false) ∧
    capBodies3.length < 10 ∧
    (∃ nb : Body, spawn capBodies3 (5, 5) = (capBodies3 ++ [nb], true) ∧
      nb.x = 5 ∧ nb.y = 5 ∧ nb.mass = MASS ∧ nb.vx = 0.1 ∧ nb.vy = 0.1 ∧
      nb.color = COLORS.getD (capBodies3.length - 3) (0, 0, 0) ∧
      nb.trace = [] ∧ nb.radius = ⌊Real.sqrt nb.mass * 2⌋) := by
  have h10 : capBodies10.length = 10 := by simp [capBodies10]
  have h3 : capBodies3.length < 10 := by simp [capBodies3]
  exact ⟨h10, (spawn_capacity capBodies10 (5, 5)).1 h10, h3,
    (spawn_capacity capBodies3 (5, 5)).2 h3⟩

/-- C4: whenever the Euclidean separation of two bodies is strictly below 40
(including coincident positions, where the floored distance is 1), the
pairwise force is exactly `(0, 0)`. -/
theorem cutoff_force_zero (p1 p2 : Body) (h : sep p1 p2 < 40) :
    calculate_gravitational_force p1 p2 = (0, 0) := by
  simp only [calculate_gravitational_force]
  rw [if_pos]
  exact max_lt (by norm_num) h

/-- C4 (witness): two coincident bodies exert no force on each other. -/
theorem cutoff_force_zero_witness :
    sep coBody1 coBody2 < 40 ∧
    calculate_gravitational_force coBody1 coBody2 = (0, 0) := by
  have h : sep coBody1 coBody2 < 40 := by
    have h0 : sep coBody1 coBody2 = 0 := by
      simp [sep, coBody1, coBody2, Body.init]
    rw [h0]
    norm_num
  exact ⟨h, cutoff_force_zero coBody1 coBody2 h⟩

/-- C5: for separation `d ≥ 40` the pairwise force on `p1` from `p2` equals
`G·m1·m2/d²` times the unit vector along the displacement from `p1` to `p2`,
its magnitude is `G·m1·m2/d²`, and the reciprocal force is its exact negation
(Newton's third law). -/
theorem force_newton_third_law (p1 p2 : Body) (hm1 : 0 ≤ p1.mass)
    (hm2 : 0 ≤ p2.mass) (h : 40 ≤ sep p1 p2) :
    calculate_gravitational_force p1 p2 =
      (G * p1.mass * p2.mass / sep p1 p2 ^ 2 * ((p2.x - p1.x) / sep p1 p2),
       G * p1.mass * p2.mass / sep p1 p2 ^ 2 * ((p2.y - p1.y) / sep p1 p2)) ∧
    Real.sqrt ((calculate_gravitational_force p1 p2).1 ^ 2 +
               (calculate_gravitational_force p1 p2).2 ^ 2) =
      G * p1.mass * p2.mass / sep p1 p2 ^ 2 ∧
    calculate_gravitational_force p2 p1 =
      (-(calculate_gravitational_force p1 p2).1,
       -(calculate_gravitational_force p1 p2).2) :=
  ⟨force_eq_of_ge p1 p2 h, force_mag_of_ge p1 p2 hm1 hm2 h, force_antisymm p1 p2 h⟩

/-- C5 (witness): for two mass-10 bodies 50 units apart along the x-axis the
reciprocal force is the exact negation of the direct force. -/
theorem force_newton_third_law_witness :
    calculate_gravitational_force farBody2 farBody1 =
      (-(calculate_gravitational_force farBody1 farBody2).1,
       -(calculate_gravitational_force farBody1 farBody2).2) :=
  (force_newton_third_law farBody1 farBody2
    (by norm_num [farBody1, Body.init])
    (by norm_num [farBody2, Body.init])
    (by rw [sep_far]; norm_num)).2.2

/-- C6: the integration step is semi-implicit Euler with unit time step: the
velocity is first updated by the acceleration `force/mass`, and the position
is then advanced by the already-updated velocity. -/
theorem integrate_semi_implicit (b : Body) (fx fy : ℝ) :
    (b.integrate fx fy).vx = b.vx + fx / b.mass ∧
    (b.integrate fx fy).vy = b.vy + fy / b.mass ∧
    (b.integrate fx fy).x = b.x + (b.integrate fx fy).vx ∧
    (b.integrate fx fy).y = b.y + (b.integrate fx fy).vy :=
  ⟨rfl, rfl, rfl, rfl⟩

/-- C7: boundary reflection clamps and damps each axis independently,
vertical first (`if y < 0` / `elif y > height`, then `if x < 0` /
`elif x > width`, each with `v *= -REBOUND_FACTOR`); in particular, an
isolated body at `y = height + 5` with `vy = 2` ends the step with
`y = height` and `vy = -1`. -/
theorem boundary_reflection_cases (b : Body) :
    (b.y < 0 →
      b.check_boundaries.y = 0 ∧ b.check_boundaries.vy = b.vy * -REBOUND_FACTOR) ∧
    (¬ b.y < 0 → b.y > height →
      b.check_boundaries.y = height ∧
      b.check_boundaries.vy = b.vy * -REBOUND_FACTOR) ∧
    (¬ b.y < 0 → ¬ b.y > height →
      b.check_boundaries.y = b.y ∧ b.check_boundaries.vy = b.vy) ∧
    (b.x < 0 →
      b.check_boundaries.x = 0 ∧ b.check_boundaries.vx = b.vx * -REBOUND_FACTOR) ∧
    (¬ b.x < 0 → b.x > width →
      b.check_boundaries.x = width ∧
      b.check_boundaries.vx = b.vx * -REBOUND_FACTOR) ∧
    (¬ b.x < 0 → ¬ b.x > width →
      b.check_boundaries.x = b.x ∧ b.check_boundaries.vx = b.vx) ∧
    (b.y = height + 5 → b.vy = 2 →
      (Body.calculate_grav_force b [b]).y = height ∧
      (Body.calculate_grav_force b [b]).vy = -1) := by
  obtain ⟨hy, hvy, hx, hvx, -, -, -⟩ := check_boundaries_proj b
  refine ⟨?_, ?_, ?_, ?_, ?_, ?_, ?_⟩
  · intro h
    rw [hy, hvy]
    simp [h]
  · intro h h'
    rw [hy, hvy]
    simp [h, h']
  · intro h h'
    rw [hy, hvy]
    simp [h, h']
  · intro h
    rw [hx, hvx]
    simp [h]
  · intro h h'
    rw [hx, hvx]
    simp [h, h']
  · intro h h'
    rw [hx, hvx]
    simp [h, h']
  · intro hyv hvyv
    rw [calc_grav_force_single]
    have hcy : (b.integrate 0 0).y = height + 7 := by
      simp [Body.integrate, hyv, hvyv, zero_div]
      ring
    have hcvy : (b.integrate 0 0).vy = 2 := by
      simp [Body.integrate, hvyv, zero_div]
    obtain ⟨hy2, hvy2, -, -, -, -, -⟩ := check_boundaries_proj (b.integrate 0 0)
    have hylow : ¬ (b.integrate 0 0).y < 0 := by
      rw [hcy]
      norm_num [height]
    have hyhigh : (b.integrate 0 0).y > height := by
      rw [hcy]
      linarith
    constructor
    · show ((b.integrate 0 0).check_boundaries.update_trace).y = height
      have hproj : ((b.integrate 0 0).check_boundaries.update_trace).y =
          (b.integrate 0 0).check_boundaries.y := rfl
      rw [hproj, hy2, if_neg hylow, if_pos hyhigh]
    · show ((b.integrate 0 0).check_boundaries.update_trace).vy = -1
      have hproj : ((b.integrate 0 0).check_boundaries.update_trace).vy =
          (b.integrate 0 0).check_boundaries.vy := rfl
      rw [hproj, hvy2, if_pos (Or.inr hyhigh), hcvy]
      norm_num [REBOUND_FACTOR]

/-- C7 (witness): the body `reboundBody` (at `y = height + 5`, `vy = 2`) ends
its step clamped to `y = height` with `vy = -1`. -/
theorem boundary_reflection_cases_witness :
    reboundBody.y = height + 5 ∧ reboundBody.vy = 2 ∧
    (Body.calculate_grav_force reboundBody [reboundBody]).y = height ∧
    (Body.calculate_grav_force reboundBody [reboundBody]).vy = -1 := by
  have h1 : reboundBody.y = height + 5 := rfl
  have h2 : reboundBody.vy = 2 := rfl
  obtain ⟨hy, hvy⟩ := (boundary_reflection_cases reboundBody).2.2.2.2.2.2 h1 h2
  exact ⟨h1, h2, hy, hvy⟩

/-- C8: every body in the collection produced by a simulation step has its
position inside the closed domain rectangle `[0, width] × [0, height]`; since
this holds for arbitrary input collections, the invariant is preserved by
every step. -/
theorem step_position_in_box (bodies : List Body) (b : Body)
    (hb : b ∈ step bodies) :
    0 ≤ b.x ∧ b.x ≤ width ∧ 0 ≤ b.y ∧ b.y ≤ height := by
  refine stepGo_in_box bodies [] ?_ b hb
  intro c hc
  exact absurd hc (List.not_mem_nil c)

/-- C8 (witness): the single body produced by stepping `[boxBody]` lies inside
the domain rectangle. -/
theorem step_position_in_box_witness :
    0 ≤ (Body.calculate_grav_force boxBody [boxBody]).x ∧
    (Body.calculate_grav_force boxBody [boxBody]).x ≤ width ∧
    0 ≤ (Body.calculate_grav_force boxBody [boxBody]).y ∧
    (Body.calculate_grav_force boxBody [boxBody]).y ≤ height := by
  refine step_position_in_box [boxBody] _ ?_
  show Body.calculate_grav_force boxBody [boxBody] ∈ step [boxBody]
  simp [step, stepGo]

/-- C9: boundary reflection is idempotent — it leaves an in-bounds body
entirely unchanged, and applying it twice always equals applying it once. -/
theorem reflect_idempotent (b : Body) :
    (0 ≤ b.x → b.x ≤ width → 0 ≤ b.y → b.y ≤ height → b.check_boundaries = b) ∧
    b.check_boundaries.check_boundaries = b.check_boundaries := by
  refine ⟨fun h1 h2 h3 h4 => check_boundaries_id b h1 h2 h3 h4, ?_⟩
  obtain ⟨h1, h2, h3, h4⟩ := check_boundaries_in_box b
  exact check_boundaries_id _ h1 h2 h3 h4

/-- C9 (witness): reflecting the in-bounds body `boxBody` is a no-op. -/
theorem reflect_idempotent_witness :
    ((0 : ℝ) ≤ boxBody.x ∧ boxBody.x ≤ width ∧
     (0 : ℝ) ≤ boxBody.y ∧ boxBody.y ≤ height) ∧
    boxBody.check_boundaries = boxBody := by
  have h1 : (0 : ℝ) ≤ boxBody.x := by norm_num [boxBody, Body.init]
  have h2 : boxBody.x ≤ width := by norm_num [boxBody, Body.init, width]
  have h3 : (0 : ℝ) ≤ boxBody.y := by norm_num [boxBody, Body.init]
  have h4 : boxBody.y ≤ height := by norm_num [boxBody, Body.init, height]
  exact ⟨⟨h1, h2, h3, h4⟩, (reflect_idempotent boxBody).1 h1 h2 h3 h4⟩

/-- C10: the reference accumulation — the flat tuple grown from `(0, 0)` by
concatenating each force pair, split by `add_tuples` into even- and
odd-indexed sums — is extensionally equal to the straightforward
component-wise running vector sum `vec_sum` of the same force pairs. -/
theorem add_tuples_refines_vec_sum (ps : List (ℝ × ℝ)) :
    add_tuples (flat_pairs ((0, 0) :: ps)) = vec_sum ps :=
  add_tuples_pad ps
